import Mathlib

/-!
Shallow embedding of the Winux cursor theme generator
(`themes/winux-cursors/src/generate-cursors.py`) together with proofs about
the rendering pipeline it implements.

Python numeric conventions used throughout the embedding:
* every float expression the script truncates with `int(...)` has an exact
  rational value `n / d` with `d > 0`, and `int(n / d)` is `Int.tdiv n d`
  (truncation toward zero); the script's float arithmetic coincides with this
  exact arithmetic on every expression it evaluates at the four catalog sizes
  (24, 32, 48, 64); in particular `int(k * s)` for `s = size / 24` is embedded
  as `Int.tdiv (k * size) 24` (and `int(1.5 * s)` as `Int.tdiv (3 * size) 48`,
  and so on, keeping the source's numerators);
* `//` is floor division (`Int.fdiv`), `a % m` with positive `m` is `%`
  (`Int.emod`);
* the cosine/sine values the script obtains from the math library at its
  twelve (resp. eight) spinner angles are tabulated exactly, as the rational
  values of the IEEE doubles, over the common denominator `10 ^ 32`.
-/

namespace Winux

/-- RGBA color, straight (non-premultiplied) alpha, 8 bits per channel. -/
structure Color where
  r : ℤ
  g : ℤ
  b : ℤ
  a : ℤ
deriving DecidableEq

/-- A fill given as an RGB triple on an RGBA surface gets alpha 255. -/
def rgb (r g b : ℤ) : Color := ⟨r, g, b, 255⟩

/-- `WHITE = (255, 255, 255)` -/
def white : Color := rgb 255 255 255

/-- `BLACK = (0, 0, 0)` -/
def black : Color := rgb 0 0 0

/-- `ACCENT_COLOR = (0, 212, 255)` -/
def accent : Color := rgb 0 212 255

/-- `ACCENT_COLOR_DARK = (0, 170, 204)` -/
def accentDark : Color := rgb 0 170 204

/-- Fully transparent pixel, the content of a freshly allocated surface. -/
def transparent : Color := ⟨0, 0, 0, 0⟩

/-- The four catalog resolutions, `SIZES = {x1: 24, x1.25: 32, x1.5: 48, x2: 64}`. -/
def catalogSizes : List ℕ := [24, 32, 48, 64]

/-- The source's `int(k * s)` for a canonical coordinate `k` and scale
`s = size / 24`: truncation of the exact value `k * size / 24` toward zero. -/
def px (k : ℤ) (size : ℕ) : ℤ := Int.tdiv (k * size) 24

/-- The claim's coordinate transform, written from the spec's words (not from
the source): multiply the canonical value by `size / 24` and round to the
nearest integer, ties toward positive infinity, i.e.
`⌊c * size / 24 + 1 / 2⌋`. -/
def specRoundNearestTiesUp (c size : ℕ) : ℤ := ((2 * c * size + 24) / 48 : ℕ)

/-- The transform the source actually applies to its nonnegative canonical
coordinates: the floor of `c * size / 24`. -/
def floorPx (c size : ℕ) : ℤ := ((c * size) / 24 : ℕ)

/-! ### Animation frames (`generate_wait_frame`, `generate_progress_frame`) -/

/-- One dot of a spinner ring: `draw.ellipse([x - r, y - r, x + r, y + r],
fill=color)`, recorded as center, radius and fill color. -/
structure Dot where
  cx : ℤ
  cy : ℤ
  rad : ℤ
  color : Color
deriving DecidableEq

/-- Common denominator of the tabulated trigonometric values. -/
def trigDen : ℤ := 10 ^ 32

/-- Numerators over `trigDen` of `math.cos(2 * math.pi * i / 12 - math.pi / 2)`
as computed by the script in IEEE doubles, for the twelve wait-spinner
angles. -/
def cos12Num : ℕ → ℤ
  | 0 => 6123233995736766
  | 1 => 4999999999999999 * 10 ^ 16
  | 2 => 8660254037844386 * 10 ^ 16
  | 3 => 10 ^ 32
  | 4 => 8660254037844387 * 10 ^ 16
  | 5 => 4999999999999999 * 10 ^ 16
  | 6 => 6123233995736766
  | 7 => -(4999999999999998 * 10 ^ 16)
  | 8 => -(8660254037844385 * 10 ^ 16)
  | 9 => -(10 ^ 32)
  | 10 => -(8660254037844386 * 10 ^ 16)
  | _ => -(5000000000000004 * 10 ^ 16)

/-- Numerators over `trigDen` of `math.sin(2 * math.pi * i / 12 - math.pi / 2)`
as computed by the script in IEEE doubles. -/
def sin12Num : ℕ → ℤ
  | 0 => -(10 ^ 32)
  | 1 => -(8660254037844387 * 10 ^ 16)
  | 2 => -(5 * 10 ^ 31)
  | 3 => 0
  | 4 => 49999999999999983 * 10 ^ 15
  | 5 => 8660254037844387 * 10 ^ 16
  | 6 => 10 ^ 32
  | 7 => 8660254037844387 * 10 ^ 16
  | 8 => 5000000000000003 * 10 ^ 16
  | 9 => 12246467991473532
  | 10 => -(5000000000000001 * 10 ^ 16)
  | _ => -(8660254037844384 * 10 ^ 16)

/-- Numerators over `trigDen` of `math.cos(2 * math.pi * i / 8 - math.pi / 2)`
for the eight progress-spinner angles. -/
def cos8Num : ℕ → ℤ
  | 0 => 6123233995736766
  | 1 => 7071067811865476 * 10 ^ 16
  | 2 => 10 ^ 32
  | 3 => 7071067811865476 * 10 ^ 16
  | 4 => 6123233995736766
  | 5 => -(7071067811865475 * 10 ^ 16)
  | 6 => -(10 ^ 32)
  | _ => -(7071067811865477 * 10 ^ 16)

/-- Numerators over `trigDen` of `math.sin(2 * math.pi * i / 8 - math.pi / 2)`. -/
def sin8Num : ℕ → ℤ
  | 0 => -(10 ^ 32)
  | 1 => -(7071067811865475 * 10 ^ 16)
  | 2 => 0
  | 3 => 7071067811865475 * 10 ^ 16
  | 4 => 10 ^ 32
  | 5 => 7071067811865476 * 10 ^ 16
  | 6 => 12246467991473532
  | _ => -(7071067811865475 * 10 ^ 16)

/-- One color channel of a spinner dot:
`int(acc * opacity / 255 + base * (1 - opacity / 255))`, whose exact value is
`(acc * opacity + base * (255 - opacity)) / 255`. -/
def mixChan (acc base op : ℤ) : ℤ := Int.tdiv (acc * op + base * (255 - op)) 255

/-- The wait spinner's dot radius, `dot_radius = max(2, int(1.5*s))`. -/
def waitDotRadius (size : ℕ) : ℤ := max 2 (Int.tdiv (3 * size) 48)

/-- The center of wait dot `i`:
`(center + int(radius * cos(angle)), center + int(radius * sin(angle)))`
for `center = size // 2` and `radius = int(8*s)`; frame-independent. -/
def waitDotPos (size : ℕ) (i : ℕ) : ℤ × ℤ :=
  let center : ℤ := ((size / 2 : ℕ) : ℤ)
  let radius : ℤ := Int.tdiv (8 * size) 24
  (center + Int.tdiv (radius * cos12Num i) trigDen,
   center + Int.tdiv (radius * sin12Num i) trigDen)

/-- The dot list drawn by `generate_wait_frame(size, frame)`: twelve dots on a
ring of radius `int(8*s)` about `size // 2`, dot radius `max(2, int(1.5*s))`,
opacity `int(255 * (1 - ((i - frame) % 12) / 12))` with alpha floored at 50,
color interpolated between the accent color and gray 100. -/
def waitDots (size : ℕ) (frame : ℤ) : List Dot :=
  let dotRadius : ℤ := waitDotRadius size
  (List.range 12).map (fun i =>
    let x := (waitDotPos size i).1
    let y := (waitDotPos size i).2
    let off := ((i : ℤ) - frame) % 12
    let opacity := Int.tdiv (255 * (12 - off)) 12
    { cx := x, cy := y, rad := dotRadius,
      color := { r := mixChan 0 100 opacity, g := mixChan 212 100 opacity,
                 b := mixChan 255 100 opacity, a := max 50 opacity } })

/-- The dot list overlaid by `generate_progress_frame(size, frame)` on top of
the default-arrow render: eight dots on a ring of radius `int(4*s)` about
`(int(16*s), int(16*s))`, dot radius `max(1, int(0.8*s))`, opacity
`int(255 * (1 - ((i - frame) % 8) / 8))` with alpha floored at 80, color
interpolated between the accent color and gray 80. -/
def progressDots (size : ℕ) (frame : ℤ) : List Dot :=
  let scx : ℤ := Int.tdiv (16 * size) 24
  let scy : ℤ := Int.tdiv (16 * size) 24
  let radius : ℤ := Int.tdiv (4 * size) 24
  let dotRadius : ℤ := max 1 (Int.tdiv (4 * size) 120)
  (List.range 8).map (fun i =>
    let x := scx + Int.tdiv (radius * cos8Num i) trigDen
    let y := scy + Int.tdiv (radius * sin8Num i) trigDen
    let off := ((i : ℤ) - frame) % 8
    let opacity := Int.tdiv (255 * (8 - off)) 8
    { cx := x, cy := y, rad := dotRadius,
      color := { r := mixChan 0 80 opacity, g := mixChan 212 80 opacity,
                 b := mixChan 255 80 opacity, a := max 80 opacity } })

/-- Whether a dot's filled disc covers a pixel. -/
def dotCovers (d : Dot) (x y : ℤ) : Bool :=
  (x - d.cx) ^ 2 + (y - d.cy) ^ 2 ≤ d.rad ^ 2

/-- Successive `draw.ellipse(..., fill=...)` calls replace the pixels they
cover, so the last covering dot determines the pixel; `none` where no dot
covers it. -/
def overlayDots (ds : List Dot) (x y : ℤ) : Option Color :=
  ds.foldl (fun acc d => if dotCovers d x y then some d.color else acc) none

/-- The pixel of a wait frame: the dot overlay over the freshly allocated
transparent surface. -/
def waitPixel (size : ℕ) (frame : ℤ) (x y : ℤ) : Color :=
  (overlayDots (waitDots size frame) x y).getD transparent

/-! ### Directional resize cursors (`generate_resize_arrow`) -/

/-- The eight compass directions of the resize cursors. -/
inductive Dir where
  | n | s | e | w | ne | nw | se | sw
deriving DecidableEq

/-- The `directions` table of `generate_resize_arrow`. -/
def dirVec : Dir → ℤ × ℤ
  | .n => (0, -1)
  | .s => (0, 1)
  | .e => (1, 0)
  | .w => (-1, 0)
  | .ne => (1, -1)
  | .nw => (-1, -1)
  | .se => (1, 1)
  | .sw => (-1, 1)

/-- The primitive draw calls issued by `generate_resize_arrow`: a thick line
and filled (black) triangles. -/
inductive Op where
  | lineSeg (x1 y1 x2 y2 w : ℤ)
  | tri (x1 y1 x2 y2 x3 y3 : ℤ)
deriving DecidableEq

/-- The ordered draw calls of `generate_resize_arrow(size, direction)`: the
center line, then the arrowhead at `(x1, y1)` (`dir_mult = -1`), then the one
at `(x2, y2)` (`dir_mult = 1`).  The diagonal arrowhead corners
`int(e - dm*d*a + p*a*0.5)` are embedded as `Int.tdiv (2*(e - dm*d*a) + p*a) 2`. -/
def resizeOps (size : ℕ) (d : Dir) : List Op :=
  let center : ℤ := ((size / 2 : ℕ) : ℤ)
  let arrowSize : ℤ := Int.tdiv (5 * size) 24
  let lineWidth : ℤ := max 2 (Int.tdiv (2 * size) 24)
  let dx := (dirVec d).1
  let dy := (dirVec d).2
  let len : ℤ :=
    if dx.natAbs = 1 ∧ dy.natAbs = 1 then Int.tdiv (8 * size) 24
    else Int.tdiv (10 * size) 24
  let x1 := center - Int.fdiv (dx * len) 2
  let y1 := center - Int.fdiv (dy * len) 2
  let x2 := center + Int.fdiv (dx * len) 2
  let y2 := center + Int.fdiv (dy * len) 2
  let head := fun (ex ey dm : ℤ) =>
    match d with
    | .n | .s =>
        Op.tri ex ey (ex - arrowSize) (ey - dm * dy * arrowSize)
          (ex + arrowSize) (ey - dm * dy * arrowSize)
    | .e | .w =>
        Op.tri ex ey (ex - dm * dx * arrowSize) (ey - arrowSize)
          (ex - dm * dx * arrowSize) (ey + arrowSize)
    | _ =>
        let pdx := -dy
        let pdy := dx
        Op.tri ex ey
          (Int.tdiv (2 * (ex - dm * dx * arrowSize) + pdx * arrowSize) 2)
          (Int.tdiv (2 * (ey - dm * dy * arrowSize) + pdy * arrowSize) 2)
          (Int.tdiv (2 * (ex - dm * dx * arrowSize) - pdx * arrowSize) 2)
          (Int.tdiv (2 * (ey - dm * dy * arrowSize) - pdy * arrowSize) 2)
  [Op.lineSeg x1 y1 x2 y2 lineWidth, head x1 y1 (-1), head x2 y2 1]

/-- Rasterization of a thick line (§4.2 leaves rasterization details as an
implementation freedom; the model paints the pixels within distance `w / 2`
of the segment): squared point-to-segment distance test, kept in ℤ by
scaling through by 4 (resp. by the squared segment length). -/
def lineCovers (x1 y1 x2 y2 w qx qy : ℤ) : Bool :=
  let dx := x2 - x1
  let dy := y2 - y1
  let ux := qx - x1
  let uy := qy - y1
  let t := ux * dx + uy * dy
  let len2 := dx * dx + dy * dy
  if t ≤ 0 then decide (4 * (ux * ux + uy * uy) ≤ w * w)
  else if len2 ≤ t then
    decide (4 * ((qx - x2) * (qx - x2) + (qy - y2) * (qy - y2)) ≤ w * w)
  else decide (4 * (ux * dy - uy * dx) ^ 2 ≤ w * w * len2)

/-- Twice the signed area of the triangle `(x1,y1) (x2,y2) (q)`. -/
def cross3 (x1 y1 x2 y2 qx qy : ℤ) : ℤ :=
  (x2 - x1) * (qy - y1) - (y2 - y1) * (qx - x1)

/-- Rasterization of a filled triangle: the pixel lies on the same side of
all three (implicitly closed) edges, boundary included. -/
def triCovers (x1 y1 x2 y2 x3 y3 qx qy : ℤ) : Bool :=
  let t1 := cross3 x1 y1 x2 y2 qx qy
  let t2 := cross3 x2 y2 x3 y3 qx qy
  let t3 := cross3 x3 y3 x1 y1 qx qy
  decide ((0 ≤ t1 ∧ 0 ≤ t2 ∧ 0 ≤ t3) ∨ (t1 ≤ 0 ∧ t2 ≤ 0 ∧ t3 ≤ 0))

/-- Whether one primitive draw call inks a pixel. -/
def opCovers (o : Op) (qx qy : ℤ) : Bool :=
  match o with
  | .lineSeg x1 y1 x2 y2 w => lineCovers x1 y1 x2 y2 w qx qy
  | .tri x1 y1 x2 y2 x3 y3 => triCovers x1 y1 x2 y2 x3 y3 qx qy

/-- Whether any draw call of the list inks a pixel. -/
def inkCovers (ops : List Op) (qx qy : ℤ) : Bool :=
  ops.any (fun o => opCovers o qx qy)

/-- The pixel of a rendered resize cursor: every draw call of
`generate_resize_arrow` fills with opaque black over the transparent
surface. -/
def resizePixel (size : ℕ) (d : Dir) (qx qy : ℤ) : Color :=
  if inkCovers (resizeOps size d) qx qy then black else transparent

/-- Reflection of a draw call about the main diagonal (swap the two
coordinates of every point). -/
def swapOp : Op → Op
  | .lineSeg x1 y1 x2 y2 w => .lineSeg y1 x1 y2 x2 w
  | .tri x1 y1 x2 y2 x3 y3 => .tri y1 x1 y2 x2 y3 x3

/-! ### Static shape generators as display trees

Each static generator allocates a transparent surface (`Img.blank`), issues a
sequence of primitive draw calls (`Img.draw`), and optionally pipes the result
through `create_shadow` (`Img.shadowed`).  The tree records the build of the
returned surface; the primitive arguments are transcribed from the source. -/

/-- A primitive draw call of the imaging library, with the arguments the
source passes (boxes as corner coordinates, optional fill and outline). -/
inductive Cmd where
  | polygon (pts : List (ℤ × ℤ)) (fill : Option Color) (outline : Option Color)
  | roundedRect (x0 y0 x1 y1 radius : ℤ) (fill : Option Color) (outline : Option Color)
  | ellipseCmd (x0 y0 x1 y1 : ℤ) (fill : Option Color) (outline : Option Color) (width : ℤ)
  | rectCmd (x0 y0 x1 y1 : ℤ) (fill : Color)
  | lineCmd (pts : List (ℤ × ℤ)) (fill : Color) (width : ℤ)
  | textCmd (x y : ℤ) (str : String) (fill : Color)
deriving DecidableEq

/-- The build tree of a generator's surface. -/
inductive Img where
  | blank (w h : ℕ)
  | draw (base : Img) (c : Cmd)
  | shadowed (base : Img) (dx dy blur : ℤ)
deriving DecidableEq

/-- Dimensions of the surface described by a build tree; `create_shadow`
returns a surface of its input's size. -/
def imgSize : Img → ℕ × ℕ
  | .blank w h => (w, h)
  | .draw base _ => imgSize base
  | .shadowed base _ _ _ => imgSize base

/-- Whether the generator's returned surface is the output of the shadow
compositor (the generator ends in `return create_shadow(...)`). -/
def topShadowed : Img → Bool
  | .shadowed _ _ _ _ => true
  | _ => false

/-- Whether any shadow-compositing step occurs anywhere in the build of the
surface (also via an embedded, already-shadowed sub-render). -/
def containsShadow : Img → Bool
  | .blank _ _ => false
  | .draw base _ => containsShadow base
  | .shadowed _ _ _ _ => true

/-- The canonical (24-grid) coordinates of the seven `arrow_points` of
`generate_default`. -/
def canonicalArrow : List (ℕ × ℕ) :=
  [(3, 3), (3, 19), (7, 15), (11, 20), (13, 18), (9, 13), (15, 13)]

/-- The `arrow_points` list of `generate_default`. -/
def arrowPoints (size : ℕ) : List (ℤ × ℤ) :=
  [(px 3 size, px 3 size), (px 3 size, px 19 size), (px 7 size, px 15 size),
   (px 11 size, px 20 size), (px 13 size, px 18 size), (px 9 size, px 13 size),
   (px 15 size, px 13 size)]

/-- `generate_default(size)`: arrow polygon, accent highlight line, then
`create_shadow(img, (int(1*s), int(1*s)), int(2*s))`. -/
def generateDefaultImg (size : ℕ) : Img :=
  (((Img.blank size size).draw
      (.polygon (arrowPoints size) (some white) (some black))).draw
      (.lineCmd [(px 3 size, px 3 size), (px 3 size, px 10 size)] accent
        (max 1 (px 1 size)))).shadowed (px 1 size) (px 1 size) (px 2 size)

/-- `generate_pointer(size)`: palm, index finger, three curled fingers, thumb,
accent fingertip, then the shadow. -/
def generatePointerImg (size : ℕ) : Img :=
  let base := ((Img.blank size size).draw
      (.roundedRect (px 4 size) (px 10 size) (px 18 size) (px 22 size)
        (px 3 size) (some white) (some black))).draw
      (.roundedRect (px 7 size) (px 2 size) (px 12 size) (px 12 size)
        (px 2 size) (some white) (some black))
  let withFingers := [(13 : ℤ), 15, 17].foldl (fun img x =>
      img.draw (.roundedRect (px (x - 1) size) (px 10 size) (px (x + 2) size)
        (px 16 size) (px 1 size) (some white) (some black))) base
  ((withFingers.draw
      (.roundedRect (px 2 size) (px 12 size) (px 6 size) (px 17 size)
        (px 1 size) (some white) (some black))).draw
      (.ellipseCmd (px 8 size) (px 2 size) (px 11 size) (px 5 size)
        (some accent) (some accentDark) 1)).shadowed
    (px 1 size) (px 1 size) (px 2 size)

/-- The text cursor's beam width, `max(2, int(2*s))`. -/
def textBeamWidth (size : ℕ) : ℤ := max 2 (Int.tdiv (2 * size) 24)

/-- `generate_text(size)`: vertical bar, two serifs, accent highlight;
returned raw (no shadow). -/
def generateTextImg (size : ℕ) : Img :=
  let center : ℤ := ((size / 2 : ℕ) : ℤ)
  let beamWidth := textBeamWidth size
  let serifWidth := px 6 size
  let serifHeight : ℤ := max 2 (Int.tdiv (2 * size) 24)
  ((((Img.blank size size).draw
      (.rectCmd (center - Int.fdiv beamWidth 2) (px 4 size)
        (center + Int.fdiv beamWidth 2) (px 20 size) black)).draw
      (.rectCmd (center - Int.fdiv serifWidth 2) (px 3 size)
        (center + Int.fdiv serifWidth 2) (px 3 size + serifHeight) black)).draw
      (.rectCmd (center - Int.fdiv serifWidth 2) (px 20 size)
        (center + Int.fdiv serifWidth 2) (px 20 size + serifHeight) black)).draw
      (.rectCmd (center - Int.fdiv beamWidth 2) (center - px 2 size)
        (center + Int.fdiv beamWidth 2) (center + px 2 size) accent)

/-- `generate_help(size)`: draws the accent circle and the question-mark glyph
on top of the (already shadowed) `generate_default(size)` surface and returns
it without piping its own result through the compositor. -/
def generateHelpImg (size : ℕ) : Img :=
  ((generateDefaultImg size).draw
      (.ellipseCmd (px 16 size - px 5 size) (px 16 size - px 5 size)
        (px 16 size + px 5 size) (px 16 size + px 5 size)
        (some accent) (some accentDark) 1)).draw
    (.textCmd (px 16 size - px 2 size) (px 16 size - px 4 size) "?" white)

/-- `generate_crosshair(size)`: four black ticks and an accent center dot;
returned raw. -/
def generateCrosshairImg (size : ℕ) : Img :=
  let center : ℤ := ((size / 2 : ℕ) : ℤ)
  let lineLength := px 8 size
  let lineWidth : ℤ := max 2 (Int.tdiv (2 * size) 24)
  let gap := px 3 size
  let dotRadius : ℤ := max 2 (Int.tdiv (3 * size) 48)
  (((((Img.blank size size).draw
      (.rectCmd (center - lineLength) (center - Int.fdiv lineWidth 2)
        (center - gap) (center + Int.fdiv lineWidth 2) black)).draw
      (.rectCmd (center + gap) (center - Int.fdiv lineWidth 2)
        (center + lineLength) (center + Int.fdiv lineWidth 2) black)).draw
      (.rectCmd (center - Int.fdiv lineWidth 2) (center - lineLength)
        (center + Int.fdiv lineWidth 2) (center - gap) black)).draw
      (.rectCmd (center - Int.fdiv lineWidth 2) (center + gap)
        (center + Int.fdiv lineWidth 2) (center + lineLength) black)).draw
    (.ellipseCmd (center - dotRadius) (center - dotRadius)
      (center + dotRadius) (center + dotRadius) (some accent) (some accentDark) 1)

/-- `generate_move(size)`: four outward arrows (line plus filled head) and an
accent center circle; returned raw. -/
def generateMoveImg (size : ℕ) : Img :=
  let center : ℤ := ((size / 2 : ℕ) : ℤ)
  let arrowSize := px 4 size
  let lineLength := px 6 size
  let withArrows := [((0 : ℤ), (-1 : ℤ)), (0, 1), (-1, 0), (1, 0)].foldl
    (fun img dxy =>
      let dx := dxy.1
      let dy := dxy.2
      let lex := center + dx * lineLength
      let ley := center + dy * lineLength
      let tipx := center + dx * (lineLength + arrowSize)
      let tipy := center + dy * (lineLength + arrowSize)
      let pts :=
        if dx ≠ 0 then
          [(tipx, tipy), (lex, ley - Int.fdiv arrowSize 2),
           (lex, ley + Int.fdiv arrowSize 2)]
        else
          [(tipx, tipy), (lex - Int.fdiv arrowSize 2, ley),
           (lex + Int.fdiv arrowSize 2, ley)]
      (img.draw (.lineCmd [(center, center), (lex, ley)] black
          (max 2 (Int.tdiv (2 * size) 24)))).draw
        (.polygon pts (some black) none))
    (Img.blank size size)
  let dotRadius : ℤ := max 2 (px 2 size)
  withArrows.draw (.ellipseCmd (center - dotRadius) (center - dotRadius)
    (center + dotRadius) (center + dotRadius) (some accent) (some accentDark) 1)

/-- `RED = (220, 53, 69)` of `generate_not_allowed`. -/
def brightRed : Color := rgb 220 53 69

/-- `RED_DARK = (185, 43, 58)` of `generate_not_allowed` (bound but unused in
its draw calls). -/
def darkRed : Color := rgb 185 43 58

/-- `generate_not_allowed(size)`: red outlined circle and diagonal bar,
`offset = int(radius * 0.7)`; returned raw. -/
def generateNotAllowedImg (size : ℕ) : Img :=
  let center : ℤ := ((size / 2 : ℕ) : ℤ)
  let radius := px 9 size
  let lineWidth : ℤ := max 2 (Int.tdiv (5 * size) 48)
  let offset := Int.tdiv (radius * 7) 10
  ((Img.blank size size).draw
      (.ellipseCmd (center - radius) (center - radius)
        (center + radius) (center + radius) none (some brightRed) lineWidth)).draw
    (.lineCmd [(center - offset, center - offset), (center + offset, center + offset)]
      brightRed lineWidth)

/-- `generate_grab(size)`: palm, four spread fingers, thumb, then the
shadow. -/
def generateGrabImg (size : ℕ) : Img :=
  let base := (Img.blank size size).draw
    (.roundedRect (px 4 size) (px 10 size) (px 20 size) (px 22 size)
      (px 3 size) (some white) (some black))
  let withFingers := [((5 : ℤ), (4 : ℤ)), (8, 2), (11, 2), (14, 4)].foldl
    (fun img xh =>
      img.draw (.roundedRect (px xh.1 size) (px xh.2 size) (px (xh.1 + 3) size)
        (px 12 size) (px 1 size) (some white) (some black))) base
  (withFingers.draw
      (.roundedRect (px 17 size) (px 8 size) (px 21 size) (px 14 size)
        (px 1 size) (some white) (some black))).shadowed
    (px 1 size) (px 1 size) (px 2 size)

/-- `generate_grabbing(size)`: fist, three knuckles, wrapped thumb, then the
shadow. -/
def generateGrabbingImg (size : ℕ) : Img :=
  let base := (Img.blank size size).draw
    (.roundedRect (px 4 size) (px 8 size) (px 20 size) (px 20 size)
      (px 4 size) (some white) (some black))
  let withKnuckles := [(6 : ℤ), 10, 14].foldl
    (fun img x =>
      img.draw (.ellipseCmd (px x size) (px 6 size) (px (x + 3) size)
        (px 10 size) (some white) (some black) 1)) base
  (withKnuckles.draw
      (.roundedRect (px 3 size) (px 12 size) (px 7 size) (px 18 size)
        (px 1 size) (some white) (some black))).shadowed
    (px 1 size) (px 1 size) (px 2 size)

/-- `generate_zoom_in(size)`: glass circle, handle, accent plus sign, then the
shadow.  `handle_start = glass_center + int(glass_radius * 0.7)`. -/
def generateZoomInImg (size : ℕ) : Img :=
  let gcx := px 9 size
  let gcy := px 9 size
  let gr := px 6 size
  let hsx := gcx + Int.tdiv (gr * 7) 10
  let hsy := gcy + Int.tdiv (gr * 7) 10
  let plusSize := px 3 size
  let lineWidth : ℤ := max 2 (Int.tdiv (3 * size) 48)
  (((((Img.blank size size).draw
      (.ellipseCmd (gcx - gr) (gcy - gr) (gcx + gr) (gcy + gr)
        (some white) (some black) (max 2 (Int.tdiv (3 * size) 48)))).draw
      (.lineCmd [(hsx, hsy), (px 20 size, px 20 size)] black
        (max 3 (Int.tdiv (5 * size) 48)))).draw
      (.lineCmd [(gcx - plusSize, gcy), (gcx + plusSize, gcy)] accent lineWidth)).draw
      (.lineCmd [(gcx, gcy - plusSize), (gcx, gcy + plusSize)] accent lineWidth)).shadowed
    (px 1 size) (px 1 size) (px 2 size)

/-- `generate_zoom_out(size)`: like zoom-in but with only the horizontal
minus stroke, then the shadow. -/
def generateZoomOutImg (size : ℕ) : Img :=
  let gcx := px 9 size
  let gcy := px 9 size
  let gr := px 6 size
  let hsx := gcx + Int.tdiv (gr * 7) 10
  let hsy := gcy + Int.tdiv (gr * 7) 10
  let minusSize := px 3 size
  let lineWidth : ℤ := max 2 (Int.tdiv (3 * size) 48)
  ((((Img.blank size size).draw
      (.ellipseCmd (gcx - gr) (gcy - gr) (gcx + gr) (gcy + gr)
        (some white) (some black) (max 2 (Int.tdiv (3 * size) 48)))).draw
      (.lineCmd [(hsx, hsy), (px 20 size, px 20 size)] black
        (max 3 (Int.tdiv (5 * size) 48)))).draw
      (.lineCmd [(gcx - minusSize, gcy), (gcx + minusSize, gcy)] accent lineWidth)).shadowed
    (px 1 size) (px 1 size) (px 2 size)

/-- `generate_col_resize(size)`: horizontal double arrow with accent dot;
returned raw. -/
def generateColResizeImg (size : ℕ) : Img :=
  let center : ℤ := ((size / 2 : ℕ) : ℤ)
  let arrowSize := px 4 size
  let lineLength := px 6 size
  let lineWidth : ℤ := max 2 (Int.tdiv (2 * size) 24)
  let dotRadius : ℤ := max 1 (px 1 size)
  ((((Img.blank size size).draw
      (.rectCmd (center - lineLength) (center - Int.fdiv lineWidth 2)
        (center + lineLength) (center + Int.fdiv lineWidth 2) black)).draw
      (.polygon [(center - lineLength - arrowSize, center),
        (center - lineLength, center - arrowSize),
        (center - lineLength, center + arrowSize)] (some black) none)).draw
      (.polygon [(center + lineLength + arrowSize, center),
        (center + lineLength, center - arrowSize),
        (center + lineLength, center + arrowSize)] (some black) none)).draw
    (.ellipseCmd (center - dotRadius) (center - dotRadius)
      (center + dotRadius) (center + dotRadius) (some accent) none 1)

/-- `generate_row_resize(size)`: vertical double arrow with accent dot;
returned raw. -/
def generateRowResizeImg (size : ℕ) : Img :=
  let center : ℤ := ((size / 2 : ℕ) : ℤ)
  let arrowSize := px 4 size
  let lineLength := px 6 size
  let lineWidth : ℤ := max 2 (Int.tdiv (2 * size) 24)
  let dotRadius : ℤ := max 1 (px 1 size)
  ((((Img.blank size size).draw
      (.rectCmd (center - Int.fdiv lineWidth 2) (center - lineLength)
        (center + Int.fdiv lineWidth 2) (center + lineLength) black)).draw
      (.polygon [(center, center - lineLength - arrowSize),
        (center - arrowSize, center - lineLength),
        (center + arrowSize, center - lineLength)] (some black) none)).draw
      (.polygon [(center, center + lineLength + arrowSize),
        (center - arrowSize, center + lineLength),
        (center + arrowSize, center + lineLength)] (some black) none)).draw
    (.ellipseCmd (center - dotRadius) (center - dotRadius)
      (center + dotRadius) (center + dotRadius) (some accent) none 1)

/-- `generate_all_scroll(size)`: central circle, four triangular arrows,
accent center dot; returned raw. -/
def generateAllScrollImg (size : ℕ) : Img :=
  let center : ℤ := ((size / 2 : ℕ) : ℤ)
  let circleRadius := px 4 size
  let arrowDist := px 7 size
  let arrowSize := px 3 size
  let dotRadius : ℤ := max 1 (Int.tdiv (3 * size) 48)
  ((((((Img.blank size size).draw
      (.ellipseCmd (center - circleRadius) (center - circleRadius)
        (center + circleRadius) (center + circleRadius)
        (some white) (some black) (max 1 (px 1 size)))).draw
      (.polygon [(center, center - arrowDist - arrowSize),
        (center - arrowSize, center - arrowDist),
        (center + arrowSize, center - arrowDist)] (some black) none)).draw
      (.polygon [(center, center + arrowDist + arrowSize),
        (center - arrowSize, center + arrowDist),
        (center + arrowSize, center + arrowDist)] (some black) none)).draw
      (.polygon [(center - arrowDist - arrowSize, center),
        (center - arrowDist, center - arrowSize),
        (center - arrowDist, center + arrowSize)] (some black) none)).draw
      (.polygon [(center + arrowDist + arrowSize, center),
        (center + arrowDist, center - arrowSize),
        (center + arrowDist, center + arrowSize)] (some black) none)).draw
    (.ellipseCmd (center - dotRadius) (center - dotRadius)
      (center + dotRadius) (center + dotRadius) (some accent) none 1)

/-- The closed set of static cursor names, in the insertion order of the
`static_cursors` dict of `main`. -/
inductive CursorName where
  | default | pointer | text | help | crosshair | move | notAllowed
  | grab | grabbing | zoomIn | zoomOut | colResize | rowResize | allScroll
deriving DecidableEq

/-- The `static_cursors` mapping of `main`. -/
def renderStatic : CursorName → ℕ → Img
  | .default => generateDefaultImg
  | .pointer => generatePointerImg
  | .text => generateTextImg
  | .help => generateHelpImg
  | .crosshair => generateCrosshairImg
  | .move => generateMoveImg
  | .notAllowed => generateNotAllowedImg
  | .grab => generateGrabImg
  | .grabbing => generateGrabbingImg
  | .zoomIn => generateZoomInImg
  | .zoomOut => generateZoomOutImg
  | .colResize => generateColResizeImg
  | .rowResize => generateRowResizeImg
  | .allScroll => generateAllScrollImg

/-- The six shapes the spec enumerates as shadowed. -/
def specShadowedShapes : List CursorName :=
  [.default, .pointer, .grab, .grabbing, .zoomIn, .zoomOut]

/-! ### The shadow compositor (`create_shadow`) at the pixel level -/

/-- An RGBA raster surface: dimensions plus a (total) pixel map; only the
pixels with `0 ≤ x < w`, `0 ≤ y < h` belong to the surface. -/
structure Surf where
  w : ℕ
  h : ℕ
  pix : ℤ → ℤ → Color

/-- `Image.new('RGBA', (w, h), (0, 0, 0, 0))`. -/
def mkSurf (w h : ℕ) : Surf := ⟨w, h, fun _ _ => transparent⟩

/-- Whether a pixel position lies inside a surface's bounds. -/
def inB (s : Surf) (x y : ℤ) : Bool :=
  decide (0 ≤ x) && decide (x < (s.w : ℤ)) && decide (0 ≤ y) && decide (y < (s.h : ℤ))

/-- Modelled from the spec: the external imaging library's per-pixel
mask compositing (`Image.paste` with a mask), §4.4 "paint a uniform
low-opacity black layer through that mask": each channel is interpolated
between destination and source by the mask value. -/
def blendMask (dst src : Color) (m : ℤ) : Color :=
  ⟨Int.tdiv (dst.r * (255 - m) + src.r * m) 255,
   Int.tdiv (dst.g * (255 - m) + src.g * m) 255,
   Int.tdiv (dst.b * (255 - m) + src.b * m) 255,
   Int.tdiv (dst.a * (255 - m) + src.a * m) 255⟩

/-- `shadow.paste((0, 0, 0, 60), mask=alpha)`: composites the uniform color
through the mask over the whole surface box. -/
def pasteColorMask (dst : Surf) (c : Color) (maskOf : ℤ → ℤ → ℤ) : Surf :=
  { dst with pix := fun x y =>
      if (inB dst x y) then blendMask (dst.pix x y) c (maskOf x y) else dst.pix x y }

/-- Sum of two colors channelwise (used only to average a blur window). -/
def addColor (c d : Color) : Color := ⟨c.r + d.r, c.g + d.g, c.b + d.b, c.a + d.a⟩

/-- A surface pixel read that treats out-of-bounds positions as transparent. -/
def clampRead (s : Surf) (x y : ℤ) : Color :=
  if inB s x y then s.pix x y else transparent

/-- Modelled from the spec: the external imaging library's
`ImageFilter.GaussianBlur(radius)` (§4.4 "blur the layer with a Gaussian
kernel of the given radius").  Its pixel values are cosmetic tuning (§9) and
no claim depends on them; the model is a uniform box kernel over the
`(2r+1)²` window, reading out-of-bounds as transparent.  What matters for the
claims is that the filter returns a new surface of identical dimensions. -/
def gaussBlur (radius : ℕ) (s : Surf) : Surf :=
  { s with pix := fun x y =>
      let offs := (List.range (2 * radius + 1)).map (fun k => (k : ℤ) - radius)
      let total := (offs.flatMap (fun ox => offs.map (fun oy =>
        clampRead s (x + ox) (y + oy)))).foldl addColor transparent
      let n : ℤ := (2 * radius + 1 : ℕ)
      ⟨Int.tdiv total.r (n * n), Int.tdiv total.g (n * n),
       Int.tdiv total.b (n * n), Int.tdiv total.a (n * n)⟩ }

/-- `dst.paste(src, (dx, dy), src)`: pastes `src` at the given offset through
its own alpha channel; the parts of the source that fall outside the
destination bounds are clipped (never wrapped, and the destination keeps its
size). -/
def pasteMasked (dst src : Surf) (dx dy : ℤ) : Surf :=
  { dst with pix := fun x y =>
      (if (inB dst x y && inB src (x - dx) (y - dy)) then
        blendMask (dst.pix x y) (src.pix (x - dx) (y - dy))
          ((src.pix (x - dx) (y - dy)).a)
      else dst.pix x y) }

/-- `create_shadow(image, offset, blur_radius)`: shadow layer from the input's
alpha, blurred, pasted at the offset onto a fresh transparent surface of the
input's size, with the original pasted on top unshifted. -/
def createShadow (img : Surf) (dx dy : ℤ) (blurRadius : ℕ) : Surf :=
  let shadow0 := mkSurf img.w img.h
  let shadow1 := pasteColorMask shadow0 ⟨0, 0, 0, 60⟩ (fun x y => (img.pix x y).a)
  let shadow2 := gaussBlur blurRadius shadow1
  let result0 := mkSurf img.w img.h
  let result1 := pasteMasked result0 shadow2 dx dy
  pasteMasked result1 img 0 0

/-! ### `create_shadow` as a heap program (frame effects)

To talk about mutation, the same function is modelled with the imaging
library's surfaces living in a heap of buffers addressed by index, and each
source line either allocating (`Image.new`, `filter`) or mutating in place
(`paste`). -/

/-- A heap of allocated surfaces, addressed by list index. -/
abbrev SurfHeap : Type := List Surf

/-- The heap semantics of `create_shadow(h[imgRef], (dx, dy), blurRadius)`:

* `Image.new` allocates `shadow`;
* `shadow.paste((0,0,0,60), mask=image.split()[3])` mutates `shadow` in
  place, reading `image`;
* `shadow.filter(GaussianBlur(...))` returns a new surface (rebinding the
  variable, not mutating);
* `Image.new` allocates `result`;
* both `result.paste(...)` calls mutate `result` in place, reading the
  blurred layer and the original image.

Returns the final heap and the index of the returned surface. -/
def createShadowHeap (h : SurfHeap) (imgRef : ℕ) (dx dy : ℤ) (blurRadius : ℕ) :
    SurfHeap × ℕ :=
  let img := h.getD imgRef (mkSurf 0 0)
  let shadowRef := h.length
  let h1 := h ++ [mkSurf img.w img.h]
  let h2 := h1.set shadowRef
    (pasteColorMask (h1.getD shadowRef (mkSurf 0 0)) ⟨0, 0, 0, 60⟩
      (fun x y => ((h1.getD imgRef (mkSurf 0 0)).pix x y).a))
  let blurRef := h2.length
  let h3 := h2 ++ [gaussBlur blurRadius (h2.getD shadowRef (mkSurf 0 0))]
  let resultRef := h3.length
  let h4 := h3 ++ [mkSurf img.w img.h]
  let h5 := h4.set resultRef
    (pasteMasked (h4.getD resultRef (mkSurf 0 0)) (h4.getD blurRef (mkSurf 0 0)) dx dy)
  let h6 := h5.set resultRef
    (pasteMasked (h5.getD resultRef (mkSurf 0 0)) (h5.getD imgRef (mkSurf 0 0)) 0 0)
  (h6, resultRef)

/-! ### The pipeline orchestrator (`main`) -/

/-- One output image of the catalog: resolution label and file name. -/
abbrev Job : Type := String × String

/-- Python's `f"{n:02d}"` for the 1-indexed frame numbers. -/
def twoDigit (n : ℕ) : String := if n < 10 then "0" ++ toString n else toString n

/-- The resolution labels, in the iteration order of `SIZES`. -/
def sizeLabels : List String := ["x1", "x1.25", "x1.5", "x2"]

/-- The static cursor names, in the insertion order of `static_cursors`. -/
def staticNameStrings : List String :=
  ["default", "pointer", "text", "help", "crosshair", "move", "not-allowed",
   "grab", "grabbing", "zoom-in", "zoom-out", "col-resize", "row-resize",
   "all-scroll"]

/-- The `resize_directions` list of `main`. -/
def resizeDirStrings : List String := ["n", "s", "e", "w", "ne", "nw", "se", "sw"]

/-- Every output image of `main`'s catalog traversal, in traversal order:
statics (name outer, size inner), the resize cursors, then the 12 wait and 12
progress frames (frame outer, size inner). -/
def catalogJobs : List Job :=
  (staticNameStrings.flatMap (fun nm =>
    sizeLabels.map (fun lbl => ((lbl, nm ++ ".png") : Job)))) ++
  (resizeDirStrings.flatMap (fun dn =>
    sizeLabels.map (fun lbl => ((lbl, dn ++ "-resize.png") : Job)))) ++
  ((List.range 12).flatMap (fun fr =>
    sizeLabels.map (fun lbl => ((lbl, "wait-" ++ twoDigit (fr + 1) ++ ".png") : Job)))) ++
  ((List.range 12).flatMap (fun fr =>
    sizeLabels.map (fun lbl => ((lbl, "progress-" ++ twoDigit (fr + 1) ++ ".png") : Job))))

/-- The orchestrator's traversal against an external encoder
(`img.save(...)`): `main` wraps no call in any exception handler, so the
first raised encoder error propagates and ends the whole run.  Returns the
jobs on which the encoder was invoked, the jobs successfully written, and the
propagated error, if any. -/
def runJobs (enc : Job → Except String Unit) :
    List Job → List Job × List Job × Option String
  | [] => ([], [], none)
  | j :: rest =>
    match enc j with
    | .ok _ =>
      let r := runJobs enc rest
      (j :: r.1, j :: r.2.1, r.2.2)
    | .error e => ([j], [], some e)

/-- An encoder that fails exactly on the catalog's first image, used to
exhibit the orchestrator's failure behavior. -/
def encFailFirst : Job → Except String Unit :=
  fun j => if j = (("x1", "default.png") : Job) then .error "EncodeError" else .ok ()

/-! ## Theorems -/

set_option maxRecDepth 10000

/-- The source's truncation of a nonnegative canonical product is the floor
of `c * size / 24`. -/
theorem px_eq_floorPx (c size : ℕ) : px (c : ℤ) size = floorPx c size := by
  unfold px floorPx
  rw [show ((c : ℤ) * (size : ℤ)) = ((c * size : ℕ) : ℤ) by push_cast; ring,
    show ((24 : ℤ)) = ((24 : ℕ) : ℤ) by norm_num, ← Int.ofNat_tdiv]

/-- C1.  The claim asserts that every pixel coordinate of a shape generator is
the canonical value scaled by `size / 24` and rounded to the NEAREST integer
(ties toward positive infinity).  The code instead truncates with `int(...)`:
at size 32 the fourth arrow point of `generate_default`, canonical `(11, 20)`,
is rendered at `(int(11 * 32/24), int(20 * 32/24)) = (14, 26)`, while the
claimed transform gives `(15, 27)`. -/
theorem c1_rounding_counterexample :
    (arrowPoints 32).getD 3 (0, 0) = (14, 26) ∧
    specRoundNearestTiesUp 11 32 = 15 ∧ specRoundNearestTiesUp 20 32 = 27 ∧
    ((14 : ℤ), (26 : ℤ)) ≠ (specRoundNearestTiesUp 11 32, specRoundNearestTiesUp 20 32) := by
  decide

/-- C1 (amended).  Every coordinate `generate_default` uses is the canonical
value scaled by `size / 24` and then FLOORED (Python `int()` truncation,
which is the floor for these nonnegative products) — not rounded to nearest:
the arrow points are exactly the floor transform of their canonical list. -/
theorem c1_floor_transform (size : ℕ) :
    arrowPoints size =
      canonicalArrow.map (fun cd => (floorPx cd.1 size, floorPx cd.2 size)) := by
  simp only [arrowPoints, canonicalArrow, List.map]
  refine congrArg₂ _ ?_ (congrArg₂ _ ?_ (congrArg₂ _ ?_ (congrArg₂ _ ?_
    (congrArg₂ _ ?_ (congrArg₂ _ ?_ (congrArg₂ _ ?_ rfl)))))) <;>
    refine Prod.ext ?_ ?_ <;>
    simp only [] <;>
    exact (by exact_mod_cast px_eq_floorPx _ size)

/-- C3.  The claim asserts that any render at `targetSize ≤ 0` fails with
`InvalidSizeError`.  The code has no size validation at all: no such error
class exists, `s = size / 24` is computed unconditionally, and at size 0
`generate_default` happily returns a 0×0 surface (which `main` would save);
the wait generator likewise returns its twelve (degenerate) dots. -/
theorem c3_no_validation_counterexample :
    imgSize (generateDefaultImg 0) = (0, 0) ∧ (waitDots 0 0).length = 12 := by
  decide

/-- C3 (amended).  Constructing the scale context never fails: for every
target size (0 included) `generate_default` returns a `size × size` surface;
there is no `InvalidSizeError` and no input validation in the renderer. -/
theorem c3_render_total (size : ℕ) :
    imgSize (generateDefaultImg size) = (size, size) := rfl

/-- C2.  The claim asserts that for BOTH animation styles frame `k` and frame
`k + 12` render pixel-identically.  That is true for `wait` but false for
`progress`: its spinner has 8 dots and reduces `i - frame` mod 8, and
`12 % 8 = 4 ≠ 0`.  At size 24 the dot drawn at pixel `(16, 12)` (whose fill
replaces the pixel) is fully opaque accent `(0, 212, 255, 255)` in frame 0
but `(40, 145, 167, 127)` in frame 12, so the two surfaces differ there. -/
theorem c2_progress_counterexample :
    overlayDots (progressDots 24 0) 16 12 = some ⟨0, 212, 255, 255⟩ ∧
    overlayDots (progressDots 24 12) 16 12 = some ⟨40, 145, 167, 127⟩ ∧
    overlayDots (progressDots 24 12) 16 12 ≠ overlayDots (progressDots 24 0) 16 12 := by
  decide

/-- C2 (amended).  Frame output is periodic in the frame index with period
equal to the style's DOT COUNT: the wait render (12 dots) repeats with period
12 — pixel-identically, at every size —, while the progress overlay (8 dots,
offset taken mod 8) repeats with period 8, not 12; the arrow underneath a
progress frame is `generate_default(size)`, independent of the frame index. -/
theorem c2_frame_periodicity (size : ℕ) (frame : ℤ) :
    waitDots size (frame + 12) = waitDots size frame ∧
    (∀ x y : ℤ, waitPixel size (frame + 12) x y = waitPixel size frame x y) ∧
    progressDots size (frame + 8) = progressDots size frame := by
  have hwait : waitDots size (frame + 12) = waitDots size frame := by
    simp only [waitDots]
    refine List.map_congr_left fun i _ => ?_
    rw [show ((i : ℤ) - (frame + 12)) % 12 = ((i : ℤ) - frame) % 12 by omega]
  refine ⟨hwait, fun x y => by rw [waitPixel, waitPixel, hwait], ?_⟩
  simp only [progressDots]
  refine List.map_congr_left fun i _ => ?_
  rw [show ((i : ℤ) - (frame + 8)) % 8 = ((i : ℤ) - frame) % 8 by omega]

/-- Swapping the two coordinates of every point reflects a thick-line
coverage test about the main diagonal. -/
theorem lineCovers_swap (x1 y1 x2 y2 w qx qy : ℤ) :
    lineCovers y1 x1 y2 x2 w qy qx = lineCovers x1 y1 x2 y2 w qx qy := by
  simp only [lineCovers]
  rw [show (qy - y1) * (y2 - y1) + (qx - x1) * (x2 - x1)
        = (qx - x1) * (x2 - x1) + (qy - y1) * (y2 - y1) by ring,
    show (y2 - y1) * (y2 - y1) + (x2 - x1) * (x2 - x1)
        = (x2 - x1) * (x2 - x1) + (y2 - y1) * (y2 - y1) by ring,
    show (qy - y1) * (qy - y1) + (qx - x1) * (qx - x1)
        = (qx - x1) * (qx - x1) + (qy - y1) * (qy - y1) by ring,
    show (qy - y2) * (qy - y2) + (qx - x2) * (qx - x2)
        = (qx - x2) * (qx - x2) + (qy - y2) * (qy - y2) by ring,
    show ((qy - y1) * (x2 - x1) - (qx - x1) * (y2 - y1)) ^ 2
        = ((qx - x1) * (y2 - y1) - (qy - y1) * (x2 - x1)) ^ 2 by ring]

/-- Reversing the two defining points negates the signed area. -/
theorem cross3_comm (x1 y1 x2 y2 qx qy : ℤ) :
    cross3 x2 y2 x1 y1 qx qy = -cross3 x1 y1 x2 y2 qx qy := by
  unfold cross3; ring

/-- Swapping the two coordinates of every point negates the signed area. -/
theorem cross3_swap (x1 y1 x2 y2 qx qy : ℤ) :
    cross3 y1 x1 y2 x2 qy qx = -cross3 x1 y1 x2 y2 qx qy := by
  unfold cross3; ring

/-- Triangle coverage is invariant under swapping the last two vertices. -/
theorem triCovers_perm (x1 y1 x2 y2 x3 y3 qx qy : ℤ) :
    triCovers x1 y1 x3 y3 x2 y2 qx qy = triCovers x1 y1 x2 y2 x3 y3 qx qy := by
  simp only [triCovers]
  rw [show cross3 x1 y1 x3 y3 qx qy = -cross3 x3 y3 x1 y1 qx qy by
      rw [cross3_comm],
    show cross3 x3 y3 x2 y2 qx qy = -cross3 x2 y2 x3 y3 qx qy by rw [cross3_comm],
    show cross3 x2 y2 x1 y1 qx qy = -cross3 x1 y1 x2 y2 qx qy by rw [cross3_comm]]
  rw [decide_eq_decide]
  omega

/-- Triangle coverage commutes with reflection about the main diagonal. -/
theorem triCovers_swap (x1 y1 x2 y2 x3 y3 qx qy : ℤ) :
    triCovers y1 x1 y2 x2 y3 x3 qy qx = triCovers x1 y1 x2 y2 x3 y3 qx qy := by
  simp only [triCovers]
  rw [cross3_swap x1 y1 x2 y2 qx qy, cross3_swap x2 y2 x3 y3 qx qy,
    cross3_swap x3 y3 x1 y1 qx qy, decide_eq_decide]
  omega

/-- Combined transpose-plus-vertex-swap step matching how the source's `sw`
arrowheads relate to the `ne` ones. -/
theorem triCovers_swapperm (x1 y1 x2 y2 x3 y3 qx qy : ℤ) :
    triCovers y1 x1 y3 x3 y2 x2 qy qx = triCovers x1 y1 x2 y2 x3 y3 qx qy := by
  rw [show triCovers y1 x1 y3 x3 y2 x2 qy qx
      = triCovers x1 y1 x3 y3 x2 y2 qx qy from triCovers_swap .., triCovers_perm]

/-- C4.  The claim asserts that opposite resize cursors are pixel-for-pixel
mirror images about the surface's centerline.  For the `{n, s}` pair at size
32 this fails: the vertical flip about the horizontal centerline sends
`(16, 8)` to `(16, 31 - 8) = (16, 23)`; the `n` cursor inks `(16, 23)` (its
line runs from `(16, 23)` to `(16, 9)` — Python's floor division of the odd
scaled length 13 makes it a pixel longer than `s`, which runs from `(16, 10)`
to `(16, 22)`), while `s` leaves `(16, 8)` transparent. -/
theorem c4_mirror_counterexample :
    resizePixel 32 .n 16 23 = black ∧ resizePixel 32 .s 16 8 = transparent ∧
    black ≠ transparent := by
  decide

/-- C4 (amended).  Only the `{ne, sw}` pair are exact pixel-for-pixel mirrors,
about the main diagonal (the one centerline that is an exact symmetry axis of
the pixel grid): at every catalog size the `sw` render at `(qx, qy)` equals
the `ne` render at the transposed pixel.  The other three pairs are centred
on pixel `(size // 2, size // 2)`, half a pixel off the surface centerline,
so their pixel flips miss by one pixel; and at sizes where the scaled length
is odd (32 for `{n, s}` and `{e, w}`, 64 for `{nw, se}`) the floor divisions
make the two extents differ outright, so those pairs are not mirrors under
any reflection. -/
theorem c4_ne_sw_transpose_mirror (size : ℕ) (hs : size ∈ catalogSizes)
    (qx qy : ℤ) : resizePixel size .sw qx qy = resizePixel size .ne qy qx := by
  fin_cases hs
  · simp only [resizePixel, inkCovers]
    rw [show resizeOps 24 Dir.sw
        = [.lineSeg 16 8 8 16 2, .tri 16 8 8 10 13 15, .tri 8 16 10 8 15 13] by decide,
      show resizeOps 24 Dir.ne
        = [.lineSeg 8 16 16 8 2, .tri 8 16 15 13 10 8, .tri 16 8 13 15 8 10] by decide]
    simp only [List.any_cons, List.any_nil, opCovers]
    simp only [lineCovers_swap 8 16 16 8 2 qy qx,
      triCovers_swapperm 8 16 15 13 10 8 qy qx,
      triCovers_swapperm 16 8 13 15 8 10 qy qx]
  · simp only [resizePixel, inkCovers]
    rw [show resizeOps 32 Dir.sw
        = [.lineSeg 21 11 11 21 2, .tri 21 11 12 14 18 20, .tri 11 21 14 12 20 18] by decide,
      show resizeOps 32 Dir.ne
        = [.lineSeg 11 21 21 11 2, .tri 11 21 20 18 14 12, .tri 21 11 18 20 12 14] by decide]
    simp only [List.any_cons, List.any_nil, opCovers]
    simp only [lineCovers_swap 11 21 21 11 2 qy qx,
      triCovers_swapperm 11 21 20 18 14 12 qy qx,
      triCovers_swapperm 21 11 18 20 12 14 qy qx]
  · simp only [resizePixel, inkCovers]
    rw [show resizeOps 48 Dir.sw
        = [.lineSeg 32 16 16 32 4, .tri 32 16 17 21 27 31, .tri 16 32 21 17 31 27] by decide,
      show resizeOps 48 Dir.ne
        = [.lineSeg 16 32 32 16 4, .tri 16 32 31 27 21 17, .tri 32 16 27 31 17 21] by decide]
    simp only [List.any_cons, List.any_nil, opCovers]
    simp only [lineCovers_swap 16 32 32 16 4 qy qx,
      triCovers_swapperm 16 32 31 27 21 17 qy qx,
      triCovers_swapperm 32 16 27 31 17 21 qy qx]
  · simp only [resizePixel, inkCovers]
    rw [show resizeOps 64 Dir.sw
        = [.lineSeg 43 22 21 42 5, .tri 43 22 23 28 36 41, .tri 21 42 27 22 40 35] by decide,
      show resizeOps 64 Dir.ne
        = [.lineSeg 22 43 42 21 5, .tri 22 43 41 36 28 23, .tri 42 21 35 40 22 27] by decide]
    simp only [List.any_cons, List.any_nil, opCovers]
    simp only [lineCovers_swap 22 43 42 21 5 qy qx,
      triCovers_swapperm 22 43 41 36 28 23 qy qx,
      triCovers_swapperm 42 21 35 40 22 27 qy qx]

/-- C4 concrete instance: the exact `{ne, sw}` mirror evaluated at size 24 on
a covered pixel and on an empty pixel. -/
theorem c4_ne_sw_transpose_mirror_witness :
    resizePixel 24 .sw 10 14 = resizePixel 24 .ne 14 10 ∧
    resizePixel 24 .sw 0 5 = resizePixel 24 .ne 5 0 :=
  ⟨c4_ne_sw_transpose_mirror 24 (by decide) 10 14,
   c4_ne_sw_transpose_mirror 24 (by decide) 0 5⟩

/-- C5.  The claim asserts that every static shape other than the six
shadowed ones "returns its raw surface with no shadow composited into it",
listing `help` among them.  But `generate_help` draws on top of the surface
returned by `generate_default`, which has already been through the shadow
compositor: the help cursor's surface does contain a composited shadow (while
not being piped through the compositor itself). -/
theorem c5_help_shadow_counterexample :
    containsShadow (renderStatic .help 24) = true ∧
    topShadowed (renderStatic .help 24) = false :=
  ⟨rfl, rfl⟩

/-- C5 (amended).  Exactly the six shapes default, pointer, grab, grabbing,
zoom-in and zoom-out pipe their own result through the shadow compositor
before returning.  Of the remaining shapes, all return surfaces whose build
contains no shadow step — except `help`, whose surface embeds the
already-shadowed default arrow. -/
theorem c5_shadow_pipeline (c : CursorName) (size : ℕ) :
    topShadowed (renderStatic c size) = decide (c ∈ specShadowedShapes) ∧
    containsShadow (renderStatic c size)
      = (decide (c ∈ specShadowedShapes) || decide (c = CursorName.help)) := by
  cases c <;> exact ⟨rfl, rfl⟩

/-- The dot built by `generate_wait_frame` at ring index `i < 12`. -/
theorem waitDots_getD (size : ℕ) (frame : ℤ) (i : ℕ) (hi : i < 12) :
    (waitDots size frame).getD i ⟨0, 0, 0, transparent⟩ =
      { cx := (waitDotPos size i).1,
        cy := (waitDotPos size i).2,
        rad := waitDotRadius size,
        color :=
          { r := mixChan 0 100 (Int.tdiv (255 * (12 - ((i : ℤ) - frame) % 12)) 12),
            g := mixChan 212 100 (Int.tdiv (255 * (12 - ((i : ℤ) - frame) % 12)) 12),
            b := mixChan 255 100 (Int.tdiv (255 * (12 - ((i : ℤ) - frame) % 12)) 12),
            a := max 50 (Int.tdiv (255 * (12 - ((i : ℤ) - frame) % 12)) 12) } } := by
  simp [waitDots, List.getD_eq_getElem?_getD, List.getElem?_map, List.getElem?_range, hi]

/-- C6.  A wait frame `k < 12` consists of twelve dots; dot `i`'s alpha is
`max(50, int(255 * (1 - ((i - k) mod 12) / 12)))`, so it never drops below
50; the dot at the current frame index `k` is the fully opaque accent color
`(0, 212, 255, 255)`; and (at the catalog sizes) every dot center lies within
the ring radius `int(8 * size/24)` of the surface center. -/
theorem c6_wait_frame_dots (size : ℕ) (k : ℕ) (hk : k < 12) :
    (waitDots size k).length = 12 ∧
    ((waitDots size k).getD k ⟨0, 0, 0, transparent⟩).color = ⟨0, 212, 255, 255⟩ ∧
    (∀ i : ℕ, i < 12 →
      ((waitDots size k).getD i ⟨0, 0, 0, transparent⟩).color.a
          = max 50 (Int.tdiv (255 * (12 - ((i : ℤ) - (k : ℤ)) % 12)) 12) ∧
      50 ≤ ((waitDots size k).getD i ⟨0, 0, 0, transparent⟩).color.a) ∧
    (size ∈ catalogSizes → ∀ i : ℕ, i < 12 →
      ((waitDots size k).getD i ⟨0, 0, 0, transparent⟩).cx = (waitDotPos size i).1 ∧
      ((waitDots size k).getD i ⟨0, 0, 0, transparent⟩).cy = (waitDotPos size i).2 ∧
      ((waitDotPos size i).1 - ((size / 2 : ℕ) : ℤ)) ^ 2
        + ((waitDotPos size i).2 - ((size / 2 : ℕ) : ℤ)) ^ 2
        ≤ (Int.tdiv (8 * size) 24) ^ 2) := by
  refine ⟨by simp [waitDots], ?_, ?_, ?_⟩
  · simp only [waitDots_getD size k k hk,
      show ((k : ℤ) - (k : ℤ)) % 12 = 0 by omega]
    decide
  · intro i hi
    rw [waitDots_getD size k i hi]
    exact ⟨rfl, le_max_left _ _⟩
  · intro hs i hi
    refine ⟨by rw [waitDots_getD size k i hi], by rw [waitDots_getD size k i hi], ?_⟩
    fin_cases hs <;> interval_cases i <;> decide

/-- C6 concrete instance at size 24, frame 0. -/
theorem c6_wait_frame_dots_witness :
    (waitDots 24 0).length = 12 ∧
    ((waitDots 24 0).getD 0 ⟨0, 0, 0, transparent⟩).color = ⟨0, 212, 255, 255⟩ :=
  ⟨(c6_wait_frame_dots 24 0 (by decide)).1, (c6_wait_frame_dots 24 0 (by decide)).2.1⟩

/-- C7.  The shadow compositor preserves dimensions: the composite is built
on fresh surfaces of `image.size`.  And the offset shadow is clipped, never
wrapped: at any in-bounds pixel whose shadow source position `(x - dx,
y - dy)` falls outside the surface, the result is exactly the original
composited over the fresh transparent surface — the shadow layer contributes
nothing there. -/
theorem c7_shadow_dims_and_clipping (img : Surf) (dx dy : ℤ) (blurRadius : ℕ) :
    (createShadow img dx dy blurRadius).w = img.w ∧
    (createShadow img dx dy blurRadius).h = img.h ∧
    (∀ x y : ℤ, inB img x y = true → inB img (x - dx) (y - dy) = false →
      (createShadow img dx dy blurRadius).pix x y
        = (pasteMasked (mkSurf img.w img.h) img 0 0).pix x y) := by
  refine ⟨rfl, rfl, ?_⟩
  intro x y hin hout
  simp only [inB] at hin hout
  simp only [createShadow, pasteMasked, pasteColorMask, gaussBlur, mkSurf, inB,
    sub_zero, hin, hout, Bool.and_true, Bool.true_and, Bool.and_false,
    Bool.false_and, if_true, if_false]
  simp

/-- C7 concrete instance: a 2×2 surface shadowed with offset `(2, 2)`; at
`(0, 0)` the shadow source `(-2, -2)` is out of bounds and the output pixel
is the original over transparent; the output keeps the 2×2 size. -/
theorem c7_shadow_dims_and_clipping_witness :
    (createShadow ⟨2, 2, fun _ _ => rgb 9 9 9⟩ 2 2 1).w = 2 ∧
    (createShadow ⟨2, 2, fun _ _ => rgb 9 9 9⟩ 2 2 1).pix 0 0
      = (pasteMasked (mkSurf 2 2) ⟨2, 2, fun _ _ => rgb 9 9 9⟩ 0 0).pix 0 0 :=
  ⟨(c7_shadow_dims_and_clipping ⟨2, 2, fun _ _ => rgb 9 9 9⟩ 2 2 1).1,
   (c7_shadow_dims_and_clipping ⟨2, 2, fun _ _ => rgb 9 9 9⟩ 2 2 1).2.2 0 0
     (by decide) (by decide)⟩

/-- C8.  The claim asserts that an encoder failure is fatal only to the one
image, with the orchestrator logging it and continuing the catalog.  `main`
wraps nothing in an exception handler, so the first `img.save` failure
propagates and aborts the whole run: with an encoder failing on the very
first of the 184 catalog images, no image at all is written and the remaining
183 are never attempted. -/
theorem c8_abort_counterexample :
    runJobs encFailFirst catalogJobs
      = ([(("x1", "default.png") : Job)], [], some "EncodeError") ∧
    catalogJobs.length = 184 :=
  ⟨by decide, by decide⟩

/-- C8 (amended).  The orchestrator indeed performs no retries — each image
is attempted at most once — but an encoder failure is fatal to the whole
remaining traversal, not just to the failing image: the images before the
failure are written, the failing one is attempted, the error propagates, and
nothing after it is attempted or written. -/
theorem c8_abort_amended (enc : Job → Except String Unit) (pre post : List Job)
    (j : Job) (e : String) (hok : ∀ j2 ∈ pre, enc j2 = .ok ())
    (herr : enc j = .error e) :
    runJobs enc (pre ++ j :: post) = (pre ++ [j], pre, some e) := by
  induction pre with
  | nil => simp [runJobs, herr]
  | cons a t ih =>
    have ha : enc a = .ok () := hok a (by simp)
    simp only [List.cons_append, runJobs, ha, List.append_eq]
    rw [ih (fun j2 hj2 => hok j2 (by simp [hj2]))]

/-- C8 concrete instance: the failing-first-encoder run over the real
catalog, via the general abort theorem with an empty successful prefix. -/
theorem c8_abort_amended_witness :
    runJobs encFailFirst ([] ++ (("x1", "default.png") : Job) :: catalogJobs.tail)
      = ([] ++ [(("x1", "default.png") : Job)], [], some "EncodeError") :=
  c8_abort_amended encFailFirst [] catalogJobs.tail ("x1", "default.png")
    "EncodeError" (fun j2 hj2 => by simp at hj2) rfl

/-- C9.  `create_shadow` never mutates its input surface: in the heap
semantics every write goes to a surface allocated inside the call (`shadow`
at index `|h|`, the blurred copy at `|h| + 1`, `result` at `|h| + 2`), every
pre-existing heap entry — in particular the input — is unchanged, and the
returned surface is the fresh `result`, not the input. -/
theorem c9_no_input_mutation (h : SurfHeap) (imgRef : ℕ) (dx dy : ℤ)
    (blurRadius : ℕ) (href : imgRef < h.length) :
    (∀ j : ℕ, j < h.length →
      ((createShadowHeap h imgRef dx dy blurRadius).1)[j]? = h[j]?) ∧
    (createShadowHeap h imgRef dx dy blurRadius).2 = h.length + 2 ∧
    (createShadowHeap h imgRef dx dy blurRadius).2 ≠ imgRef := by
  refine ⟨?_, ?_, ?_⟩
  · intro j hj
    simp only [createShadowHeap]
    rw [List.getElem?_set_ne (by simp; omega), List.getElem?_set_ne (by simp; omega),
      List.getElem?_append_left (by simp; omega),
      List.getElem?_append_left (by simp; omega),
      List.getElem?_set_ne (by omega), List.getElem?_append_left (by omega)]
  · simp [createShadowHeap]
  · simp only [createShadowHeap]
    simp only [List.length_append, List.length_set, List.length_cons,
      List.length_nil]
    omega

/-- C9 concrete instance: a one-surface heap; the input at index 0 is
untouched and the result reference is fresh. -/
theorem c9_no_input_mutation_witness :
    ((createShadowHeap [⟨1, 1, fun _ _ => white⟩] 0 2 2 1).1)[0]?
      = ([⟨1, 1, fun _ _ => white⟩] : SurfHeap)[0]? ∧
    (createShadowHeap [⟨1, 1, fun _ _ => white⟩] 0 2 2 1).2 ≠ 0 :=
  ⟨(c9_no_input_mutation [⟨1, 1, fun _ _ => white⟩] 0 2 2 1 (by decide)).1 0
      (by decide),
   (c9_no_input_mutation [⟨1, 1, fun _ _ => white⟩] 0 2 2 1 (by decide)).2.2⟩

/-- C10.  The wait spinner's dot radius is `max(2, int(1.5 * size/24))` — in
closed form `max 2 (size / 16)` — and the text cursor's beam width is
`max(2, int(2 * size/24))` — in closed form `max 2 (size / 12)`; both are
clamped from below by the fixed pixel minimum 2 at every target size, and
every dot of every wait frame carries exactly that radius. -/
theorem c10_thickness_clamps (size : ℕ) :
    waitDotRadius size = max 2 ((size / 16 : ℕ) : ℤ) ∧ 2 ≤ waitDotRadius size ∧
    textBeamWidth size = max 2 ((size / 12 : ℕ) : ℤ) ∧ 2 ≤ textBeamWidth size ∧
    (∀ frame : ℤ, ∀ d ∈ waitDots size frame, d.rad = waitDotRadius size) := by
  have cast48 : Int.tdiv (3 * size) 48 = ((3 * size / 48 : ℕ) : ℤ) := by
    rw [show ((3 : ℤ) * size) = ((3 * size : ℕ) : ℤ) by push_cast; ring,
      show ((48 : ℤ)) = ((48 : ℕ) : ℤ) by norm_num, ← Int.ofNat_tdiv]
  have cast24 : Int.tdiv (2 * size) 24 = ((2 * size / 24 : ℕ) : ℤ) := by
    rw [show ((2 : ℤ) * size) = ((2 * size : ℕ) : ℤ) by push_cast; ring,
      show ((24 : ℤ)) = ((24 : ℕ) : ℤ) by norm_num, ← Int.ofNat_tdiv]
  refine ⟨?_, ?_, ?_, ?_, ?_⟩
  · rw [waitDotRadius, cast48, show 3 * size / 48 = size / 16 by omega]
  · exact le_max_left _ _
  · rw [textBeamWidth, cast24, show 2 * size / 24 = size / 12 by omega]
  · exact le_max_left _ _
  · intro frame d hd
    simp only [waitDots, List.mem_map] at hd
    obtain ⟨i, _, rfl⟩ := hd
    rfl

/-- C10 concrete instance at size 24, where proportional scaling would give
`int(1.5) = 1` but the clamp forces radius 2. -/
theorem c10_thickness_clamps_witness :
    waitDotRadius 24 = max 2 ((24 / 16 : ℕ) : ℤ) ∧ 2 ≤ waitDotRadius 24 ∧
    ((waitDots 24 0).getD 0 ⟨0, 0, 0, transparent⟩).rad = waitDotRadius 24 :=
  ⟨(c10_thickness_clamps 24).1, (c10_thickness_clamps 24).2.1,
   (c10_thickness_clamps 24).2.2.2.2 0 _ (by decide)⟩

end Winux
